import Mathlib

/-!
Verification of the FBX scene-extraction and triangulation core of the
`fbx-viewer` repository, shallowly embedded in Lean.

Coordinates are modelled over `ℚ` (the source computes in `f64`); machine
floating point rounding is outside the scope of the embedded algorithms,
whose branches are sign/comparison tests on exactly representable values.
-/

namespace FbxViewer

/-- Decidable equality for `Except`, used to evaluate the embedded fallible
operations on concrete inputs. -/
instance {ε α : Type} [DecidableEq ε] [DecidableEq α] : DecidableEq (Except ε α)
  | Except.error e, Except.error f => decidable_of_iff (e = f) (by simp)
  | Except.error _, Except.ok _ => isFalse (by intro h; cases h)
  | Except.ok _, Except.error _ => isFalse (by intro h; cases h)
  | Except.ok a, Except.ok b => decidable_of_iff (a = b) (by simp)

/-- A 3-component vector / point (`cgmath::Point3<f64>` / `Vector3<f64>`). -/
structure Vector3 where
  x : ℚ
  y : ℚ
  z : ℚ
deriving DecidableEq

instance : Inhabited Vector3 := ⟨⟨0, 0, 0⟩⟩

/-- A 2-component vector (`cgmath::Vector2<f64>`). -/
structure Vector2 where
  x : ℚ
  y : ℚ
deriving DecidableEq

instance : Inhabited Vector2 := ⟨⟨0, 0⟩⟩

/-- Componentwise subtraction of 3-vectors. -/
def Vector3.sub (a b : Vector3) : Vector3 :=
  ⟨a.x - b.x, a.y - b.y, a.z - b.z⟩

/-- Cross product (`cgmath::Vector3::cross`). -/
def Vector3.cross (a b : Vector3) : Vector3 :=
  ⟨a.y * b.z - a.z * b.y, a.z * b.x - a.x * b.z, a.x * b.y - a.y * b.x⟩

/-- Dot product (`cgmath::Vector3::dot`). -/
def Vector3.dot (a b : Vector3) : ℚ :=
  a.x * b.x + a.y * b.y + a.z * b.z

/-- Componentwise subtraction of 2-vectors. -/
def Vector2.sub (a b : Vector2) : Vector2 :=
  ⟨a.x - b.x, a.y - b.y⟩

/-- Perpendicular dot product (`cgmath::Vector2::perp_dot`):
`self.x * other.y - self.y * other.x`. -/
def Vector2.perp_dot (a b : Vector2) : ℚ :=
  a.x * b.y - a.y * b.x

/-- Axis (`Axis` in `src/fbx/v7400/triangulator.rs`). -/
inductive Axis
  | X
  | Y
  | Z
deriving DecidableEq

/-- `smallest_direction` from `src/fbx/v7400/triangulator.rs` (lines 187-199),
verbatim branch structure. -/
def smallest_direction (v : Vector3) : Axis :=
  if v.x < v.y then
    if v.z < v.x then Axis.Z else Axis.X
  else if v.z < v.y then Axis.Z
  else Axis.Y

/-- `bounding_box` from `src/fbx/v7400/triangulator.rs` (lines 151-173):
fold producing `(min, max)` componentwise, `none` on the empty list. -/
def bounding_box (points : List Vector3) : Option (Vector3 × Vector3) :=
  points.foldl
    (fun minmax point =>
      match minmax with
      | none => some (point, point)
      | some (mn, mx) =>
        some
          (⟨min mn.x point.x, min mn.y point.y, min mn.z point.z⟩,
           ⟨max mx.x point.x, max mx.y point.y, max mx.z point.z⟩))
    none

/-- Projection to 2D dropping the given axis, matching the three `match` arms
of the triangulator at lines 77-90: dropping X keeps `(y, z)`, dropping Y
keeps `(x, z)`, dropping Z keeps `(x, y)`. -/
def drop_axis (a : Axis) (v : Vector3) : Vector2 :=
  match a with
  | Axis.X => ⟨v.y, v.z⟩
  | Axis.Y => ⟨v.x, v.z⟩
  | Axis.Z => ⟨v.x, v.y⟩

/-- The 2D projection of the `n ≥ 5` branch of the triangulator
(lines 71-91): bounding box, width `max - min`, drop the axis selected by
`smallest_direction`.  The `none` branch is unreachable there (the source
uses `expect`, and the list always has `n ≥ 5` points). -/
def project_2d (points : List Vector3) : List Vector2 :=
  match bounding_box points with
  | none => []
  | some (mn, mx) =>
    points.map (drop_axis (smallest_direction (mx.sub mn)))

/-- Turn flags of the `n ≥ 5` branch (lines 92-109): for vertex `i`,
`prev_cur = prev - cur`, `cur_next = cur - next`, flag is
`prev_cur.perp_dot(cur_next) > 0`, with `prev`/`next` taken cyclically. -/
def normal_directions (points_2d : List Vector2) : List Bool :=
  let n := points_2d.length
  (List.range n).map (fun i =>
    let cur := points_2d.getD i default
    let prev := points_2d.getD ((i + (n - 1)) % n) default
    let next := points_2d.getD ((i + 1) % n) default
    decide (0 < (prev.sub cur).perp_dot (cur.sub next)))

/-- `Iterator::position`: index of the first element satisfying the
predicate. -/
def position {α : Type} (p : α → Bool) : List α → Option Nat
  | [] => none
  | a :: rest => if p a then some 0 else (position p rest).map (fun i => i + 1)

/-- Triangulation failures (`bail!` sites of the triangulator). -/
inductive TriError
  | invalidPolygon (n : Nat)
  | unsupportedPolygon (n : Nat)
deriving DecidableEq

/-- An emitted triangle as a triple of positions into the polygon's vertex
list (the source emits `[PolygonVertexIndex; 3]` picked from `poly_pvis`
at exactly these positions). -/
abbrev Tri := Nat × Nat × Nat

/-- The `n ≥ 5` branch of `triangulator` (lines 69-139): project to 2D,
classify turns, count `true` flags; fan-triangulate around the first vertex
whose flag equals the minority sign (vertex 0 when absent) when the count
is `≤ 1` or `≥ n - 1`, otherwise fail. -/
def triangulate_ngon (points : List Vector3) : Except TriError (List Tri) :=
  let n := points.length
  let points_2d := project_2d points
  let normal_dirs := normal_directions points_2d
  let dirs_true_count := (normal_dirs.filter (fun v => v)).length
  if dirs_true_count ≤ 1 ∨ n - 1 ≤ dirs_true_count then
    let minor_sign := decide (dirs_true_count ≤ 1)
    let convex_index := (position (fun sign => sign == minor_sign) normal_dirs).getD 0
    Except.ok
      ((List.range (n - 2)).map (fun j =>
        (convex_index, (convex_index + 1 + j) % n, (convex_index + 2 + j) % n)))
  else
    Except.error (TriError.unsupportedPolygon n)

/-- `triangulator` from `src/fbx/v7400/triangulator.rs` (lines 10-141) over a
polygon given by its resolved vertex points; triangles are triples of
positions into that list. -/
def triangulator (points : List Vector3) : Except TriError (List Tri) :=
  match points with
  | [] => Except.error (TriError.invalidPolygon 0)
  | [_] => Except.error (TriError.invalidPolygon 1)
  | [_, _] => Except.error (TriError.invalidPolygon 2)
  | [_, _, _] => Except.ok [(0, 1, 2)]
  | [p0, p1, p2, p3] =>
    let n1 := (p0.sub p1).cross (p1.sub p2)
    let n3 := (p2.sub p3).cross (p3.sub p0)
    if 0 ≤ n1.dot n3 then
      Except.ok [(0, 1, 2), (2, 3, 0)]
    else
      Except.ok [(0, 1, 3), (3, 1, 2)]
  | ps => triangulate_ngon ps

/-! Scene data model (`src/data/*.rs`).  The `u32` payload of the index
newtypes is modelled as `Nat` (`IndexType::new` asserts `i <= u32::MAX` and
stores `i as u32`; `to_usize` reads it back, so within the asserted range the
round trip is the identity). -/

/-- Geometry mesh index (`src/data/scene.rs`, `define_index_type!`). -/
structure GeometryMeshIndex where
  to_usize : Nat
deriving DecidableEq

/-- Creates a new geometry mesh index (`GeometryMeshIndex::new`). -/
def GeometryMeshIndex.new (i : Nat) : GeometryMeshIndex := ⟨i⟩

/-- Material index (`src/data/scene.rs`, `define_index_type!`). -/
structure MaterialIndex where
  to_usize : Nat
deriving DecidableEq

/-- Creates a new material index (`MaterialIndex::new`). -/
def MaterialIndex.new (i : Nat) : MaterialIndex := ⟨i⟩

/-- Mesh index (`src/data/scene.rs`, `define_index_type!`). -/
structure MeshIndex where
  to_usize : Nat
deriving DecidableEq

/-- Creates a new mesh index (`MeshIndex::new`). -/
def MeshIndex.new (i : Nat) : MeshIndex := ⟨i⟩

/-- Texture index (`src/data/scene.rs`, `define_index_type!`). -/
structure TextureIndex where
  to_usize : Nat
deriving DecidableEq

/-- Creates a new texture index (`TextureIndex::new`). -/
def TextureIndex.new (i : Nat) : TextureIndex := ⟨i⟩

/-- An RGB colour triple (`rgb::RGB<f64>` / `RGB<f32>`). -/
structure RGB where
  r : ℚ
  g : ℚ
  b : ℚ
deriving DecidableEq

/-- Componentwise scaling, `color * factor` followed by the componentwise
`.map(|v| v as f32)` cast (the cast is the identity in this embedding). -/
def RGB.scale (c : RGB) (f : ℚ) : RGB :=
  ⟨c.r * f, c.g * f, c.b * f⟩

/-- `GeometryMesh` from `src/data/geometry.rs`. -/
structure GeometryMesh where
  name : Option String
  positions : List Vector3
  normals : List Vector3
  uv : List Vector2
  indices_per_material : List (List Nat)
deriving DecidableEq

/-- `LambertData` from `src/data/material.rs`. -/
structure LambertData where
  ambient : RGB
  diffuse : RGB
  emissive : RGB
deriving DecidableEq

/-- `ShadingData` from `src/data/material.rs`. -/
inductive ShadingData
  | lambert (d : LambertData)
deriving DecidableEq

/-- `Material` from `src/data/material.rs`. -/
structure Material where
  name : Option String
  diffuse_texture : Option TextureIndex
  data : ShadingData
deriving DecidableEq

/-- The mesh entity as constructed by `Loader::load_mesh`
(`src/fbx/v7400.rs` lines 316-320) and as described by the spec: name,
geometry mesh index, and the slot-to-global material index list.  The
snapshot under `src/data/mesh.rs` holds an older vertex-buffer shape that
the v7400 loader does not construct. -/
structure Mesh where
  name : Option String
  geometry_mesh_index : GeometryMeshIndex
  materials : List MaterialIndex
deriving DecidableEq

/-- A decoded image (`image::DynamicImage`); the pixel data is irrelevant to
every claim, so the image is an opaque tag. -/
structure DynamicImage where
  tag : Nat
deriving DecidableEq

/-- `WrapMode` from `src/data/texture.rs`. -/
inductive WrapMode
  | Repeat
  | ClampToEdge
deriving DecidableEq

/-- `Texture` from `src/data/texture.rs`. -/
structure Texture where
  name : Option String
  image : DynamicImage
  transparent : Bool
  wrap_mode_u : WrapMode
  wrap_mode_v : WrapMode
deriving DecidableEq

/-- `Scene` from `src/data/scene.rs`. -/
structure Scene where
  name : Option String := none
  geometry_meshes : List GeometryMesh := []
  materials : List Material := []
  meshes : List Mesh := []
  textures : List Texture := []
deriving DecidableEq

/-- `Scene::new` (`Default::default`). -/
def Scene.new : Scene := {}

/-- `Scene::add_geometry_mesh` (`src/data/scene.rs` lines 32-36).  The
source computes the returned index from `self.meshes.len()` (line 33), not
from `self.geometry_meshes.len()`, and then pushes onto
`self.geometry_meshes`. -/
def Scene.add_geometry_mesh (s : Scene) (mesh : GeometryMesh) :
    Scene × GeometryMeshIndex :=
  ({ s with geometry_meshes := s.geometry_meshes ++ [mesh] },
   GeometryMeshIndex.new s.meshes.length)

/-- `Scene::geometry_mesh` (lines 44-46). -/
def Scene.geometry_mesh (s : Scene) (i : GeometryMeshIndex) :
    Option GeometryMesh :=
  s.geometry_meshes.get? i.to_usize

/-- `Scene::add_material` (lines 49-53): index is `self.materials.len()`
before the push. -/
def Scene.add_material (s : Scene) (material : Material) :
    Scene × MaterialIndex :=
  ({ s with materials := s.materials ++ [material] },
   MaterialIndex.new s.materials.length)

/-- `Scene::material` (lines 61-63). -/
def Scene.material (s : Scene) (i : MaterialIndex) : Option Material :=
  s.materials.get? i.to_usize

/-- `Scene::add_mesh` (lines 66-70): index is `self.meshes.len()` before the
push. -/
def Scene.add_mesh (s : Scene) (mesh : Mesh) : Scene × MeshIndex :=
  ({ s with meshes := s.meshes ++ [mesh] }, MeshIndex.new s.meshes.length)

/-- `Scene::mesh` (lines 78-80). -/
def Scene.mesh (s : Scene) (i : MeshIndex) : Option Mesh :=
  s.meshes.get? i.to_usize

/-- `Scene::add_texture` (lines 83-87): index is `self.textures.len()`
before the push. -/
def Scene.add_texture (s : Scene) (texture : Texture) :
    Scene × TextureIndex :=
  ({ s with textures := s.textures ++ [texture] },
   TextureIndex.new s.textures.length)

/-- `Scene::texture` (lines 95-97). -/
def Scene.texture (s : Scene) (i : TextureIndex) : Option Texture :=
  s.textures.get? i.to_usize

/-! Document-object model.  The object graph is supplied by the external
`fbxcel_dom` crate; its accessors are embedded as data fields holding the
value the accessor would return (`Except String` for fallible property
reads, `Option` for absent slots).  Lookups addressed by triangle-vertex
index are embedded as functions from the index. -/

/-- `fbxcel_dom` object identifier (`ObjectId`). -/
structure ObjectId where
  id : Nat
deriving DecidableEq

/-- Raw wrap mode (`fbxcel_dom ... texture::WrapMode`). -/
inductive RawWrapMode
  | Repeat
  | Clamp
deriving DecidableEq

/-- Shading model (`fbxcel_dom ... material::ShadingModel`): the loader
recognises `Lambert` and `Phong` and rejects every other value. -/
inductive ShadingModel
  | lambert
  | phong
  | unknown (name : String)
deriving DecidableEq

/-- A video clip object: relative filename and optional embedded content.
The external image decoder is abstracted: the embedded content is
represented by the decoded image it would produce. -/
structure VideoClipObj where
  relative_filename : Except String String
  content : Option DynamicImage

/-- A texture object (`object::texture::TextureHandle`). -/
structure TextureObj where
  object_id : ObjectId
  name : Option String
  wrap_mode_u : Except String RawWrapMode
  wrap_mode_v : Except String RawWrapMode
  video_clip : Option VideoClipObj

/-- A material object (`object::material::MaterialHandle`), with its
`_or_default` property reads embedded as their results. -/
structure MaterialObj where
  object_id : ObjectId
  name : Option String
  transparent_texture : Option TextureObj
  diffuse_texture : Option TextureObj
  shading_model : Except String ShadingModel
  ambient_color : Except String RGB
  ambient_factor : Except String ℚ
  diffuse_color : Except String RGB
  diffuse_factor : Except String ℚ
  emissive_color : Except String RGB
  emissive_factor : Except String ℚ

/-- The first layer of a geometry, with its typed layer-element entries:
per-triangle-vertex lookups for normals, UV and mesh-local material index
(`normals.normal(..)`, `uv.uv(..)`, `materials.material_index(..)`), each
slot `none` when the layer element is absent. -/
structure LayerObj where
  normals : Option (Nat → Except String Vector3)
  uv : Option (Nat → Except String Vector2)
  materials : Option (Nat → Except String Nat)

/-- A geometry mesh object (`object::geometry::MeshHandle`):
`polygon_vertices()` is embedded as the list of polygons, each polygon the
list of its resolved control points in order. -/
structure GeometryMeshObj where
  object_id : ObjectId
  name : Option String
  polygon_vertices : Except String (List (List Vector3))
  layers : List LayerObj

/-- A mesh model object (`TypedModelHandle::Mesh`). -/
structure MeshModelObj where
  object_id : ObjectId
  name : Option String
  geometry : Except String GeometryMeshObj
  materials : List MaterialObj

/-- A typed document object, as discriminated by `Loader::load` (only
mesh-model objects are acted upon). -/
inductive DocObject
  | meshModel (m : MeshModelObj)
  | other

/-- The FBX document (`fbxcel_dom::v7400::Document`), reduced to its object
iteration. -/
structure Document where
  objects : List DocObject

/-- Load-time failures of the v7400 loader (`failure`-crate errors in the
source, keyed by the `bail!` / `format_err!` sites). -/
inductive LoadError
  | doc (msg : String)
  | triangulation (e : TriError)
  | missingLayer (which : String)
  | lengthMismatch (len1 len2 : Nat)
  | materialIndexOutOfRange (num_materials got : Nat)
  | unknownShadingModel (m : ShadingModel)
  | noEmbeddedImage
deriving DecidableEq

/-- Wraps a document-accessor failure into a load error. -/
def docE {α : Type} : Except String α → Except LoadError α
  | Except.error e => Except.error (LoadError.doc e)
  | Except.ok v => Except.ok v

/-- `Loader` from `src/fbx/v7400.rs` (lines 36-49): document reference,
scene under construction, and the four identity-to-index caches (the
`HashMap`s are embedded as association lists). -/
structure Loader where
  doc : Document
  scene : Scene
  geometry_mesh_indices : List (ObjectId × GeometryMeshIndex)
  material_indices : List (ObjectId × MaterialIndex)
  mesh_indices : List (ObjectId × MeshIndex)
  texture_indices : List (ObjectId × TextureIndex)

/-- `HashMap::get` on an association-list cache. -/
def cache_get {α : Type} : List (ObjectId × α) → ObjectId → Option α
  | [], _ => none
  | (k, v) :: rest, key => if k = key then some v else cache_get rest key

/-- `Loader::new` (lines 53-62): empty scene, empty caches. -/
def Loader.new (doc : Document) : Loader :=
  ⟨doc, Scene.new, [], [], [], []⟩

/-- `Loader::load_video_clip` (lines 379-407): read the relative filename,
require embedded content, decode.  The extension sniffing and the decode of
the byte content by the external `image` crate are abstracted into the
already-decoded `content` field. -/
def load_video_clip (video_clip_obj : VideoClipObj) :
    Except LoadError DynamicImage :=
  match video_clip_obj.relative_filename with
  | Except.error e => Except.error (LoadError.doc e)
  | Except.ok _ =>
    match video_clip_obj.content with
    | none => Except.error LoadError.noEmbeddedImage
    | some image => Except.ok image

/-- Conversion of the raw wrap mode, matching the two `match` blocks at
lines 344-347 and 353-356. -/
def wrap_mode_of_raw : RawWrapMode → WrapMode
  | RawWrapMode.Repeat => WrapMode.Repeat
  | RawWrapMode.Clamp => WrapMode.ClampToEdge

/-- `Loader::load_texture` (lines 328-376): consult the cache, read both
wrap modes, require a video clip, load its image, then append the texture
(carrying the `transparent` argument) to the scene.  Mirrors the source in
not writing the cache. -/
def Loader.load_texture (l : Loader) (texture_obj : TextureObj)
    (transparent : Bool) : Except LoadError (Loader × TextureIndex) :=
  match cache_get l.texture_indices texture_obj.object_id with
  | some index => Except.ok (l, index)
  | none =>
    match docE texture_obj.wrap_mode_u with
    | Except.error e => Except.error e
    | Except.ok raw_u =>
      match docE texture_obj.wrap_mode_v with
      | Except.error e => Except.error e
      | Except.ok raw_v =>
        match texture_obj.video_clip with
        | none => Except.error (LoadError.doc "No image data for texture object")
        | some video_clip_obj =>
          match load_video_clip video_clip_obj with
          | Except.error e => Except.error e
          | Except.ok image =>
            let texture : Texture :=
              ⟨texture_obj.name, image, transparent,
               wrap_mode_of_raw raw_u, wrap_mode_of_raw raw_v⟩
            let (scene, index) := l.scene.add_texture texture
            Except.ok ({ l with scene := scene }, index)

/-- The diffuse-texture resolution of `Loader::load_material`
(lines 237-245): prefer the transparent-texture slot (flag `true`) over the
diffuse-texture slot (flag `false`); neither slot is not an error. -/
def Loader.load_diffuse_texture (l : Loader) (material_obj : MaterialObj) :
    Except LoadError (Loader × Option TextureIndex) :=
  let slot : Option (Bool × TextureObj) :=
    match material_obj.transparent_texture with
    | some v => some (true, v)
    | none =>
      match material_obj.diffuse_texture with
      | some v => some (false, v)
      | none => none
  match slot with
  | none => Except.ok (l, none)
  | some (transparent, texture_obj) =>
    match l.load_texture texture_obj transparent with
    | Except.error e => Except.error e
    | Except.ok (l1, index) => Except.ok (l1, some index)

/-- The Lambert/Phong parameter reads of `Loader::load_material`
(lines 253-278): each of ambient/diffuse/emissive is `color * factor`. -/
def MaterialObj.lambert_data (material_obj : MaterialObj) :
    Except LoadError LambertData := do
  let ambient_color ← docE material_obj.ambient_color
  let ambient_factor ← docE material_obj.ambient_factor
  let ambient := ambient_color.scale ambient_factor
  let diffuse_color ← docE material_obj.diffuse_color
  let diffuse_factor ← docE material_obj.diffuse_factor
  let diffuse := diffuse_color.scale diffuse_factor
  let emissive_color ← docE material_obj.emissive_color
  let emissive_factor ← docE material_obj.emissive_factor
  let emissive := emissive_color.scale emissive_factor
  return ⟨ambient, diffuse, emissive⟩

/-- `Loader::load_material` (lines 227-292): consult the cache, resolve the
diffuse texture, resolve the shading model (`Lambert`/`Phong` accepted,
anything else is an error), then append the material.  Mirrors the source
in not writing the cache. -/
def Loader.load_material (l : Loader) (material_obj : MaterialObj) :
    Except LoadError (Loader × MaterialIndex) :=
  match cache_get l.material_indices material_obj.object_id with
  | some index => Except.ok (l, index)
  | none =>
    match l.load_diffuse_texture material_obj with
    | Except.error e => Except.error e
    | Except.ok (l1, diffuse_texture) =>
      match docE material_obj.shading_model with
      | Except.error e => Except.error e
      | Except.ok model =>
        match model with
        | ShadingModel.lambert | ShadingModel.phong =>
          match material_obj.lambert_data with
          | Except.error e => Except.error e
          | Except.ok d =>
            let material : Material :=
              ⟨material_obj.name, diffuse_texture, ShadingData.lambert d⟩
            let (scene, index) := l1.scene.add_material material
            Except.ok ({ l1 with scene := scene }, index)
        | ShadingModel.unknown s =>
          Except.error (LoadError.unknownShadingModel (ShadingModel.unknown s))

/-- Fallible map over a list, collecting into `Except` (the
`collect::<Result<Vec<_>, _>>()` idiom of the attribute-resolution chains),
wrapping each element failure as a document error. -/
def mapME {α β : Type} (f : α → Except String β) :
    List α → Except LoadError (List β)
  | [] => Except.ok []
  | a :: rest =>
    match f a with
    | Except.error e => Except.error (LoadError.doc e)
    | Except.ok b =>
      match mapME f rest with
      | Except.error e => Except.error e
      | Except.ok bs => Except.ok (b :: bs)

/-- `PolygonVertices::triangulate_each` of the external `fbxcel_dom` crate:
run the repository's `triangulator` on each polygon and concatenate the
emitted triangles, resolving each positional index triple to its control
points. -/
def triangulate_each :
    List (List Vector3) → Except TriError (List (Vector3 × Vector3 × Vector3))
  | [] => Except.ok []
  | poly :: rest =>
    match triangulator poly with
    | Except.error e => Except.error e
    | Except.ok tris =>
      match triangulate_each rest with
      | Except.error e => Except.error e
      | Except.ok rest_tris =>
        Except.ok
          ((tris.map (fun t =>
            (poly.getD t.1 default, poly.getD t.2.1 default,
             poly.getD t.2.2 default))) ++ rest_tris)

/-- The `indices_per_material` loop of `Loader::load_geometry_mesh`
(lines 177-194): for each triangle-vertex index, resolve the mesh-local
material index and push the triangle-vertex index into that bucket; a
bucket index out of range is an error. -/
def bucket_loop (material_index_of : Nat → Except String Nat)
    (num_materials : Nat) (acc : List (List Nat)) :
    List Nat → Except LoadError (List (List Nat))
  | [] => Except.ok acc
  | tri_vi :: rest =>
    match material_index_of tri_vi with
    | Except.error e => Except.error (LoadError.doc e)
    | Except.ok local_material_index =>
      if local_material_index < acc.length then
        bucket_loop material_index_of num_materials
          (acc.set local_material_index
            (acc.getD local_material_index [] ++ [tri_vi]))
          rest
      else
        Except.error
          (LoadError.materialIndexOutOfRange num_materials local_material_index)

/-- The cache-free body of `Loader::load_geometry_mesh` (lines 85-219):
fetch polygon vertices, triangulate, rebuild positions from the
triangle-corner control points, resolve normals and UV per triangle-vertex
index from the first layer, bucket the triangle-vertex indices per
mesh-local material, check the three attribute arrays have equal length
(`bail!` otherwise, lines 198-211), and assemble the `GeometryMesh`.
The `f64` to `f32` casts of the source are the identity here. -/
def build_geometry_mesh (mesh_obj : GeometryMeshObj) (num_materials : Nat) :
    Except LoadError GeometryMesh :=
  match docE mesh_obj.polygon_vertices with
  | Except.error e => Except.error e
  | Except.ok polygon_vertices =>
  match triangulate_each polygon_vertices with
  | Except.error e => Except.error (LoadError.triangulation e)
  | Except.ok triangle_pvi_indices =>
  let positions :=
    (triangle_pvi_indices.map (fun t => [t.1, t.2.1, t.2.2])).flatten
  match mesh_obj.layers.head? with
  | none => Except.error (LoadError.missingLayer "layer")
  | some layer =>
  match layer.normals with
  | none => Except.error (LoadError.missingLayer "normals")
  | some normal_of =>
  match mapME normal_of (List.range (3 * triangle_pvi_indices.length)) with
  | Except.error e => Except.error e
  | Except.ok normals =>
  match layer.uv with
  | none => Except.error (LoadError.missingLayer "uv")
  | some uv_of =>
  match mapME uv_of (List.range (3 * triangle_pvi_indices.length)) with
  | Except.error e => Except.error e
  | Except.ok uv =>
  match layer.materials with
  | none => Except.error (LoadError.missingLayer "materials")
  | some material_index_of =>
  match bucket_loop material_index_of num_materials
      (List.replicate num_materials [])
      (List.range (3 * triangle_pvi_indices.length)) with
  | Except.error e => Except.error e
  | Except.ok indices_per_material =>
  if positions.length ≠ normals.length then
    Except.error (LoadError.lengthMismatch positions.length normals.length)
  else if positions.length ≠ uv.length then
    Except.error (LoadError.lengthMismatch positions.length uv.length)
  else
    Except.ok
      ⟨mesh_obj.name, positions, normals, uv, indices_per_material⟩

/-- `Loader::load_geometry_mesh` (lines 76-224): consult the cache, build
the geometry mesh, append it to the scene.  Mirrors the source in not
writing the cache. -/
def Loader.load_geometry_mesh (l : Loader) (mesh_obj : GeometryMeshObj)
    (num_materials : Nat) : Except LoadError (Loader × GeometryMeshIndex) :=
  match cache_get l.geometry_mesh_indices mesh_obj.object_id with
  | some index => Except.ok (l, index)
  | none =>
    match build_geometry_mesh mesh_obj num_materials with
    | Except.error e => Except.error e
    | Except.ok mesh =>
      let (scene, index) := l.scene.add_geometry_mesh mesh
      Except.ok ({ l with scene := scene }, index)

/-- The `mesh_obj.materials().map(|m| self.load_material(m)).collect()`
step of `Loader::load_mesh` (lines 306-310): load each material in order,
threading the loader state. -/
def Loader.load_materials_list (l : Loader) :
    List MaterialObj → Except LoadError (Loader × List MaterialIndex)
  | [] => Except.ok (l, [])
  | material_obj :: rest =>
    match l.load_material material_obj with
    | Except.error e => Except.error e
    | Except.ok (l1, index) =>
      match l1.load_materials_list rest with
      | Except.error e => Except.error e
      | Except.ok (l2, indices) => Except.ok (l2, index :: indices)

/-- `Loader::load_mesh` (lines 295-325): consult the cache, resolve the
geometry object, load the materials, load the geometry mesh with the
material count, append the mesh entity.  Mirrors the source in not writing
the cache. -/
def Loader.load_mesh (l : Loader) (mesh_obj : MeshModelObj) :
    Except LoadError (Loader × MeshIndex) :=
  match cache_get l.mesh_indices mesh_obj.object_id with
  | some index => Except.ok (l, index)
  | none =>
    match docE mesh_obj.geometry with
    | Except.error e => Except.error e
    | Except.ok geometry_obj =>
      match l.load_materials_list mesh_obj.materials with
      | Except.error e => Except.error e
      | Except.ok (l1, materials) =>
        match l1.load_geometry_mesh geometry_obj materials.length with
        | Except.error e => Except.error e
        | Except.ok (l2, geometry_index) =>
          let mesh : Mesh := ⟨mesh_obj.name, geometry_index, materials⟩
          let (scene, index) := l2.scene.add_mesh mesh
          Except.ok ({ l2 with scene := scene }, index)

/-- The object loop of `Loader::load` (lines 66-70): every typed mesh-model
object is loaded, everything else is skipped; any failure aborts. -/
def load_objects (l : Loader) : List DocObject → Except LoadError Loader
  | [] => Except.ok l
  | DocObject.meshModel mesh_obj :: rest =>
    match l.load_mesh mesh_obj with
    | Except.error e => Except.error e
    | Except.ok (l1, _) => load_objects l1 rest
  | DocObject.other :: rest => load_objects l rest

/-- `Loader::load` (lines 65-73): run the object loop, then hand out the
scene. -/
def Loader.load (l : Loader) : Except LoadError Scene :=
  match load_objects l l.doc.objects with
  | Except.error e => Except.error e
  | Except.ok l1 => Except.ok l1.scene

/-- `from_doc` (lines 31-33). -/
def from_doc (doc : Document) : Except LoadError Scene :=
  (Loader.new doc).load

/-! Auxiliary definitions for the claims: the axis-extent reading used to
state minimality, the spec-side tie-break order, and concrete inputs used
by witnesses and counterexamples. -/

/-- The extent of a width vector along an axis. -/
def Vector3.component (v : Vector3) : Axis → ℚ
  | Axis.X => v.x
  | Axis.Y => v.y
  | Axis.Z => v.z

/-- Modelled from the spec wording of the amended tie-break: the axis of
smallest extent, ties broken by the fixed preference order Y, then X,
then Z. -/
def pref_min_yxz (v : Vector3) : Axis :=
  if v.y ≤ v.x ∧ v.y ≤ v.z then Axis.Y
  else if v.x ≤ v.z then Axis.X
  else Axis.Z

/-- A convex pentagon in the plane `z = 0` (width `(4, 3, 0)`). -/
def c2_pentagon : List Vector3 :=
  [⟨0, 0, 0⟩, ⟨2, 0, 0⟩, ⟨3, 2, 0⟩, ⟨1, 3, 0⟩, ⟨-1, 2, 0⟩]

/-- A pentagon in the plane `z = 0` with exactly one reflex vertex
(vertex 1). -/
def c2_one_reflex : List Vector3 :=
  [⟨0, 0, 0⟩, ⟨2, 2, 0⟩, ⟨4, 0, 0⟩, ⟨3, 4, 0⟩, ⟨1, 4, 0⟩]

/-- A hexagon in the plane `z = 0` with two reflex vertices
(vertices 1 and 4). -/
def c2_two_reflex : List Vector3 :=
  [⟨0, 0, 0⟩, ⟨2, 1, 0⟩, ⟨4, 0, 0⟩, ⟨4, 4, 0⟩, ⟨2, 3, 0⟩, ⟨0, 4, 0⟩]

/-- Five points whose bounding box has equal extent 1 along all three
axes. -/
def c4_tie_points : List Vector3 :=
  [⟨0, 0, 0⟩, ⟨1, 1, 1⟩, ⟨1, 0, 0⟩, ⟨0, 1, 0⟩, ⟨0, 0, 1⟩]

/-- A mesh entity used to pre-populate a scene's `meshes` collection. -/
def c1_padding_mesh : Mesh := ⟨none, GeometryMeshIndex.new 0, []⟩

/-- An empty geometry mesh entity. -/
def c1_geometry : GeometryMesh := ⟨none, [], [], [], []⟩

/-- A scene holding one mesh and no geometry meshes. -/
def c1_scene : Scene := { meshes := [c1_padding_mesh] }

/-- An empty document. -/
def empty_doc : Document := ⟨[]⟩

/-- A material object (id 7) with no texture slots, Lambert shading and
well-defined colour properties. -/
def c6_material_obj : MaterialObj :=
  ⟨⟨7⟩, none, none, none, Except.ok ShadingModel.lambert,
   Except.ok ⟨1, 1, 1⟩, Except.ok 1, Except.ok ⟨1, 1, 1⟩, Except.ok 1,
   Except.ok ⟨1, 1, 1⟩, Except.ok 1⟩

/-- A video clip with embedded, decodable content. -/
def c10_clip : VideoClipObj := ⟨Except.ok "a.png", some ⟨0⟩⟩

/-- A texture object (id 9) with well-defined wrap modes and an embedded
clip. -/
def c10_texture_obj : TextureObj :=
  ⟨⟨9⟩, none, Except.ok RawWrapMode.Repeat, Except.ok RawWrapMode.Repeat,
   some c10_clip⟩

/-- A second texture object (id 12), used for the diffuse slot. -/
def c9_texture_obj : TextureObj :=
  ⟨⟨12⟩, none, Except.ok RawWrapMode.Clamp, Except.ok RawWrapMode.Repeat,
   some c10_clip⟩

/-- A material object carrying both a transparent-texture slot and a
diffuse-texture slot. -/
def c9_mat_both : MaterialObj :=
  ⟨⟨20⟩, none, some c10_texture_obj, some c9_texture_obj,
   Except.ok ShadingModel.lambert,
   Except.ok ⟨1, 1, 1⟩, Except.ok 1, Except.ok ⟨1, 1, 1⟩, Except.ok 1,
   Except.ok ⟨1, 1, 1⟩, Except.ok 1⟩

/-- A material object carrying only a diffuse-texture slot. -/
def c9_mat_diffuse : MaterialObj :=
  ⟨⟨21⟩, none, none, some c9_texture_obj,
   Except.ok ShadingModel.lambert,
   Except.ok ⟨1, 1, 1⟩, Except.ok 1, Except.ok ⟨1, 1, 1⟩, Except.ok 1,
   Except.ok ⟨1, 1, 1⟩, Except.ok 1⟩

/-- A material object with neither texture slot. -/
def c9_mat_none : MaterialObj :=
  ⟨⟨22⟩, none, none, none,
   Except.ok ShadingModel.lambert,
   Except.ok ⟨1, 1, 1⟩, Except.ok 1, Except.ok ⟨1, 1, 1⟩, Except.ok 1,
   Except.ok ⟨1, 1, 1⟩, Except.ok 1⟩

/-- A geometry mesh object with one triangle polygon and a first layer
carrying total normal/UV/material lookups. -/
def c5_obj : GeometryMeshObj :=
  ⟨⟨3⟩, none, Except.ok [[⟨0, 0, 0⟩, ⟨1, 0, 0⟩, ⟨0, 1, 0⟩]],
   [⟨some (fun _ => Except.ok ⟨0, 0, 1⟩),
     some (fun _ => Except.ok ⟨0, 0⟩),
     some (fun _ => Except.ok 0)⟩]⟩

/-- The geometry mesh produced from `c5_obj` with one material slot. -/
def c5_mesh : GeometryMesh :=
  ⟨none, [⟨0, 0, 0⟩, ⟨1, 0, 0⟩, ⟨0, 1, 0⟩],
   [⟨0, 0, 1⟩, ⟨0, 0, 1⟩, ⟨0, 0, 1⟩],
   [⟨0, 0⟩, ⟨0, 0⟩, ⟨0, 0⟩],
   [[0, 1, 2]]⟩

/-- A material object (id 30) whose shading model is unrecognised. -/
def c7_bad_material : MaterialObj :=
  ⟨⟨30⟩, none, none, none, Except.ok (ShadingModel.unknown "Blinn"),
   Except.ok ⟨1, 1, 1⟩, Except.ok 1, Except.ok ⟨1, 1, 1⟩, Except.ok 1,
   Except.ok ⟨1, 1, 1⟩, Except.ok 1⟩

/-- A material object (id 31) with Lambert shading. -/
def c7_lambert_material : MaterialObj :=
  ⟨⟨31⟩, none, none, none, Except.ok ShadingModel.lambert,
   Except.ok ⟨1, 2, 3⟩, Except.ok 2, Except.ok ⟨4, 5, 6⟩, Except.ok 3,
   Except.ok ⟨7, 8, 9⟩, Except.ok 4⟩

/-- A material object (id 32) with Phong shading. -/
def c7_phong_material : MaterialObj :=
  ⟨⟨32⟩, none, none, none, Except.ok ShadingModel.phong,
   Except.ok ⟨1, 2, 3⟩, Except.ok 2, Except.ok ⟨4, 5, 6⟩, Except.ok 3,
   Except.ok ⟨7, 8, 9⟩, Except.ok 4⟩

/-- A mesh model object whose single material has an unrecognised shading
model; the geometry resolves to `c5_obj`. -/
def c7_mesh_obj : MeshModelObj :=
  ⟨⟨40⟩, none, Except.ok c5_obj, [c7_bad_material]⟩

/-- A document holding exactly the mesh model `c7_mesh_obj`. -/
def c7_doc : Document := ⟨[DocObject.meshModel c7_mesh_obj]⟩

/-! Sanity evaluations of the embedded triangulator. -/

example : triangulator [⟨0,0,0⟩, ⟨1,0,0⟩, ⟨0,1,0⟩] = Except.ok [(0,1,2)] := rfl

example :
    triangulator [⟨0,0,0⟩, ⟨1,0,0⟩, ⟨1,1,0⟩, ⟨0,1,0⟩] =
      Except.ok [(0,1,2), (2,3,0)] := by
  norm_num [triangulator, Vector3.sub, Vector3.cross, Vector3.dot]

example :
    triangulator c2_pentagon = Except.ok [(0,1,2), (0,2,3), (0,3,4)] := by
  norm_num [c2_pentagon, triangulator, triangulate_ngon, project_2d,
    bounding_box, min_def, max_def, Vector3.sub, smallest_direction,
    drop_axis, normal_directions, List.range_succ, Vector2.sub,
    Vector2.perp_dot, List.getD, position]

example :
    triangulator c2_one_reflex = Except.ok [(1,2,3), (1,3,4), (1,4,0)] := by
  norm_num [c2_one_reflex, triangulator, triangulate_ngon, project_2d,
    bounding_box, min_def, max_def, Vector3.sub, smallest_direction,
    drop_axis, normal_directions, List.range_succ, Vector2.sub,
    Vector2.perp_dot, List.getD, position]

example :
    triangulator c2_two_reflex =
      Except.error (TriError.unsupportedPolygon 6) := by
  norm_num [c2_two_reflex, triangulator, triangulate_ngon, project_2d,
    bounding_box, min_def, max_def, Vector3.sub, smallest_direction,
    drop_axis, normal_directions, List.range_succ, Vector2.sub,
    Vector2.perp_dot, List.getD, position]

/-! Helper lemmas. -/

/-- Characterisation of a successful `position` search: the index is in
range, the found element satisfies the predicate, and no earlier element
does. -/
theorem position_some_spec {α : Type} (p : α → Bool) (l : List α) :
    ∀ i : Nat, position p l = some i →
      i < l.length ∧ (∀ d, p (l.getD i d) = true) ∧
        ∀ j, j < i → ∀ d, p (l.getD j d) = false := by
  induction l with
  | nil => intro i h; simp [position] at h
  | cons a rest ih =>
    intro i h
    by_cases hp : p a
    · simp only [position, if_pos hp, Option.some.injEq] at h
      subst h
      exact ⟨Nat.succ_pos _, fun d => hp,
        fun j hj => absurd hj (Nat.not_lt_zero j)⟩
    · simp only [position, if_neg hp, Option.map_eq_some'] at h
      obtain ⟨i', hi', rfl⟩ := h
      obtain ⟨h1, h2, h3⟩ := ih i' hi'
      refine ⟨Nat.succ_lt_succ h1, fun d => by simpa using h2 d, ?_⟩
      intro j hj d
      cases j with
      | zero => simpa using Bool.not_eq_true (p a) ▸ hp
      | succ j' => simpa using h3 j' (Nat.lt_of_succ_lt_succ hj) d

/-- A failed `position` search means no element satisfies the predicate. -/
theorem position_none_spec {α : Type} (p : α → Bool) (l : List α) :
    position p l = none → ∀ a ∈ l, p a = false := by
  induction l with
  | nil => intro _ a ha; simp at ha
  | cons b rest ih =>
    intro h a ha
    by_cases hp : p b
    · simp [position, hp] at h
    · simp only [position, if_neg hp, Option.map_eq_none'] at h
      rcases List.mem_cons.mp ha with rfl | hrest
      · simpa using hp
      · exact ih h a hrest

/-- On ≥ 5 vertices the triangulator dispatches to the n-gon branch. -/
theorem triangulator_eq_ngon (points : List Vector3)
    (h5 : 5 ≤ points.length) :
    triangulator points = triangulate_ngon points := by
  rcases points with _ | ⟨a, _ | ⟨b, _ | ⟨c, _ | ⟨d, _ | ⟨e, rest⟩⟩⟩⟩⟩ <;>
    first
      | rfl
      | (simp only [List.length] at h5; omega)

/-- A successful `mapME` preserves the input length. -/
theorem mapME_length {α β : Type} (f : α → Except String β) :
    ∀ (l : List α) (out : List β), mapME f l = Except.ok out →
      out.length = l.length := by
  intro l
  induction l with
  | nil => intro out h; simp only [mapME, Except.ok.injEq] at h; simp [← h]
  | cons a rest ih =>
    intro out h
    simp only [mapME] at h
    cases hf : f a with
    | error e => rw [hf] at h; cases h
    | ok b =>
      rw [hf] at h
      cases hrec : mapME f rest with
      | error e => rw [hrec] at h; cases h
      | ok bs =>
        rw [hrec] at h
        cases h
        simp [ih bs hrec]

/-- Appending one element to a bucket of a list of buckets increases the
total length by one. -/
theorem sum_length_set_append (acc : List (List Nat)) :
    ∀ (idx x : Nat), idx < acc.length →
      (((acc.set idx (acc.getD idx [] ++ [x])).map List.length).sum)
        = ((acc.map List.length).sum) + 1 := by
  induction acc with
  | nil => intro idx x h; simp at h
  | cons a rest ih =>
    intro idx x h
    cases idx with
    | zero => simp [Nat.add_comm, Nat.add_assoc, Nat.add_left_comm]
    | succ i =>
      simp only [List.set, List.getD_cons_succ, List.map, List.sum_cons]
      rw [ih i x (by simpa using Nat.lt_of_succ_lt_succ h)]
      omega

/-- The bucket loop adds exactly one entry per processed triangle-vertex
index. -/
theorem bucket_loop_sum (f : Nat → Except String Nat) (num : Nat) :
    ∀ (l : List Nat) (acc out : List (List Nat)),
      bucket_loop f num acc l = Except.ok out →
      (out.map List.length).sum = (acc.map List.length).sum + l.length := by
  intro l
  induction l with
  | nil =>
    intro acc out h
    simp only [bucket_loop, Except.ok.injEq] at h
    simp [h]
  | cons t rest ih =>
    intro acc out h
    simp only [bucket_loop] at h
    split at h
    · cases h
    · rename_i idx heq
      split at h
      · rename_i hlt
        rw [ih _ out h, sum_length_set_append acc idx t hlt]
        simp only [List.length_cons]
        omega
      · cases h

/-- The total length of the empty buckets is zero. -/
theorem sum_length_replicate_nil (n : Nat) :
    (((List.replicate n ([] : List Nat)).map List.length).sum) = 0 := by
  induction n with
  | zero => rfl
  | succ k ih => simp [List.replicate, ih]

/-! Claim theorems. -/

/-- C1.  The claim states that every index issued by the Scene's add
operations is strictly below the length of the collection it is scoped to,
and in particular that `scene.geometry_mesh(i)` returns `Some` for every
issued `i`.  The code violates this: `Scene::add_geometry_mesh` computes
the index from `meshes.len()` instead of `geometry_meshes.len()`
(src/data/scene.rs line 33).  On a scene holding one mesh and no geometry
meshes, the issued index is 1, the grown `geometry_meshes` collection has
length 1, and looking the issued index up yields `none`. -/
theorem c1_add_geometry_mesh_bug :
    ((c1_scene.add_geometry_mesh c1_geometry).2).to_usize = 1 ∧
    (c1_scene.add_geometry_mesh c1_geometry).1.geometry_meshes.length = 1 ∧
    (c1_scene.add_geometry_mesh c1_geometry).1.geometry_mesh
        (c1_scene.add_geometry_mesh c1_geometry).2 = none := by
  refine ⟨rfl, rfl, rfl⟩

/-- C3.  For every 4-vertex polygon `p0..p3` the triangulator computes
`n1 = (p0 - p1) × (p1 - p2)` and `n3 = (p2 - p3) × (p3 - p0)`; when
`n1 · n3 ≥ 0` it emits exactly the triangles `{0,1,2}` and `{2,3,0}`
(diagonal 0-2), otherwise exactly `{0,1,3}` and `{3,1,2}` (diagonal 1-3),
and it never fails for `n = 4`. -/
theorem c3_quad_diagonal (p0 p1 p2 p3 : Vector3) :
    triangulator [p0, p1, p2, p3] =
      Except.ok
        (if 0 ≤ ((p0.sub p1).cross (p1.sub p2)).dot
              ((p2.sub p3).cross (p3.sub p0)) then
          [(0, 1, 2), (2, 3, 0)]
        else
          [(0, 1, 3), (3, 1, 2)]) := by
  simp only [triangulator]
  split <;> rfl

/-- C8.  Every polygon with fewer than 3 vertices fails with the
invalid-polygon error and emits no triangles; a 3-vertex polygon succeeds
with the single input triangle unchanged. -/
theorem c8_small_polygons :
    (∀ points : List Vector3, points.length < 3 →
      triangulator points =
        Except.error (TriError.invalidPolygon points.length)) ∧
    (∀ p0 p1 p2 : Vector3,
      triangulator [p0, p1, p2] = Except.ok [(0, 1, 2)]) := by
  constructor
  · intro points h
    rcases points with _ | ⟨a, _ | ⟨b, _ | ⟨c, rest⟩⟩⟩
    · rfl
    · rfl
    · rfl
    · simp only [List.length_cons] at h; omega
  · intro p0 p1 p2
    rfl

/-- Witness for C8 at the empty polygon and a concrete triangle. -/
theorem c8_small_polygons_witness :
    ([] : List Vector3).length < 3 ∧
    triangulator ([] : List Vector3) =
      Except.error (TriError.invalidPolygon 0) ∧
    triangulator [⟨0, 0, 0⟩, ⟨1, 0, 0⟩, ⟨0, 1, 0⟩] =
      Except.ok [(0, 1, 2)] := by
  refine ⟨by decide, ?_, ?_⟩
  · exact c8_small_polygons.1 [] (by decide)
  · exact c8_small_polygons.2 ⟨0, 0, 0⟩ ⟨1, 0, 0⟩ ⟨0, 1, 0⟩

/-- C6.  The claim states that loading the same document object a second
time returns the same Scene index and appends no new entity.  The code
violates this: the identity-to-index caches are read
(src/fbx/v7400.rs lines 81, 231, 296, 333) but never written, so a second
`load_material` on the very same material object appends a second
`Material` and returns the fresh index 1. -/
theorem c6_dedup_cache_bug :
    (((Loader.new empty_doc).load_material c6_material_obj).map
        (fun r => (r.2, r.1.scene.materials.length))) =
      Except.ok (MaterialIndex.new 0, 1) ∧
    ((((Loader.new empty_doc).load_material c6_material_obj).bind
        (fun r => r.1.load_material c6_material_obj)).map
        (fun r => (r.2, r.1.scene.materials.length))) =
      Except.ok (MaterialIndex.new 1, 2) ∧
    MaterialIndex.new 1 ≠ MaterialIndex.new 0 := by
  refine ⟨rfl, rfl, by decide⟩

/-- C10.  The claim states that a `load_texture` call for an already-cached
ObjectId returns the cached index with the Scene unchanged, so that the
stored transparent flag is always the one from the first reference.  The
cache-hit branch does exist (line 333), but the texture cache is never
written, so a second call for the same texture object appends a second
`Texture` carrying the later call's `transparent` argument: after loading
texture 9 with `transparent = true` and then with `transparent = false`,
the scene holds two textures with flags `[true, false]` and the second call
returned a fresh index. -/
theorem c10_transparent_flag_bug :
    ((((Loader.new empty_doc).load_texture c10_texture_obj true).bind
        (fun r => r.1.load_texture c10_texture_obj false)).map
        (fun r => (r.2, r.1.scene.textures.map Texture.transparent))) =
      Except.ok (TextureIndex.new 1, [true, false]) ∧
    TextureIndex.new 1 ≠ TextureIndex.new 0 := by
  refine ⟨rfl, by decide⟩

/-- C2.  For every polygon with at least 5 vertices, with `flags` the
turn classification of the 2D-projected vertices (positive perp-dot of the
edge vectors), `c` the number of `true` flags, `minor` the minority sign
and `anchor` the fan anchor: when `c ≤ 1` or `c ≥ n - 1` the triangulator
succeeds and emits exactly `n - 2` triangles all sharing the anchor as
first corner, the anchor being the first vertex whose flag matches the
minority sign and vertex 0 when no flag does; otherwise it fails with the
unsupported-polygon error. -/
theorem c2_ngon_fan (points : List Vector3) (flags : List Bool)
    (c anchor : Nat) (minor : Bool)
    (h5 : 5 ≤ points.length)
    (hflags : flags = normal_directions (project_2d points))
    (hc : c = (flags.filter (fun v => v)).length)
    (hminor : minor = decide (c ≤ 1))
    (hanchor : anchor = (position (fun sign => sign == minor) flags).getD 0) :
    (c ≤ 1 ∨ points.length - 1 ≤ c →
      ∃ tris, triangulator points = Except.ok tris ∧
        tris.length = points.length - 2 ∧
        (∀ t ∈ tris, t.1 = anchor) ∧
        ((anchor < flags.length ∧ flags.getD anchor false = minor ∧
            ∀ j, j < anchor → flags.getD j false ≠ minor) ∨
          (anchor = 0 ∧ ∀ s ∈ flags, s ≠ minor))) ∧
    (¬(c ≤ 1 ∨ points.length - 1 ≤ c) →
      triangulator points =
        Except.error (TriError.unsupportedPolygon points.length)) := by
  subst hflags
  subst hc
  subst hminor
  subst hanchor
  rw [triangulator_eq_ngon points h5]
  simp only [triangulate_ngon]
  constructor
  · intro hcond
    rw [if_pos hcond]
    refine ⟨_, rfl, by simp, ?_, ?_⟩
    · intro t ht
      simp only [List.mem_map, List.mem_range] at ht
      obtain ⟨j, _, rfl⟩ := ht
      rfl
    · cases hpos : position
          (fun sign =>
            sign ==
              decide
                (((normal_directions (project_2d points)).filter
                    (fun v => v)).length ≤ 1))
          (normal_directions (project_2d points)) with
      | some i =>
        obtain ⟨h1, h2, h3⟩ := position_some_spec _ _ i hpos
        left
        simp only [Option.getD_some]
        refine ⟨h1, ?_, ?_⟩
        · have := h2 false
          simpa using this
        · intro j hj
          have := h3 j (by simpa using hj) false
          simpa using this
      | none =>
        right
        refine ⟨by simp, ?_⟩
        intro s hs
        have := position_none_spec _ _ hpos s hs
        simpa using this
  · intro hcond
    rw [if_neg hcond]

/-- Witness for C2 at the convex pentagon: the fan succeeds with 3
triangles all anchored at vertex 0. -/
theorem c2_ngon_fan_witness :
    5 ≤ c2_pentagon.length ∧
    ∃ tris, triangulator c2_pentagon = Except.ok tris ∧
      tris.length = c2_pentagon.length - 2 ∧ ∀ t ∈ tris, t.1 = 0 := by
  refine ⟨by decide, ?_⟩
  obtain ⟨tris, h1, h2, h3, _⟩ :=
    (c2_ngon_fan c2_pentagon [true, true, true, true, true] 5 0 false
      (by decide)
      (by norm_num [c2_pentagon, project_2d, bounding_box, min_def, max_def,
        Vector3.sub, smallest_direction, drop_axis, normal_directions,
        List.range_succ, Vector2.sub, Vector2.perp_dot, List.getD])
      (by decide) (by decide) (by decide)).1 (by decide)
  exact ⟨tris, h1, h2, h3⟩

/-- `smallest_direction` agrees with the Y-then-X-then-Z tie-break order. -/
theorem smallest_direction_eq_pref (v : Vector3) :
    smallest_direction v = pref_min_yxz v := by
  unfold smallest_direction pref_min_yxz
  by_cases hxy : v.x < v.y
  · by_cases hzx : v.z < v.x
    · rw [if_pos hxy, if_pos hzx,
        if_neg (fun hc => absurd hc.1 (not_le.mpr hxy)),
        if_neg (not_le.mpr hzx)]
    · rw [if_pos hxy, if_neg hzx,
        if_neg (fun hc => absurd hc.1 (not_le.mpr hxy)),
        if_pos (le_of_not_lt hzx)]
  · by_cases hzy : v.z < v.y
    · rw [if_neg hxy, if_pos hzy,
        if_neg (fun hc => absurd hc.2 (not_le.mpr hzy)),
        if_neg (not_le.mpr (lt_of_lt_of_le hzy (le_of_not_lt hxy)))]
    · rw [if_neg hxy, if_neg hzy,
        if_pos ⟨le_of_not_lt hxy, le_of_not_lt hzy⟩]

/-- `smallest_direction` always returns an axis of minimal extent. -/
theorem smallest_direction_min (v : Vector3) (a : Axis) :
    v.component (smallest_direction v) ≤ v.component a := by
  unfold smallest_direction
  by_cases hxy : v.x < v.y
  · by_cases hzx : v.z < v.x
    · rw [if_pos hxy, if_pos hzx]
      cases a <;> simp only [Vector3.component] <;> linarith
    · push_neg at hzx
      rw [if_pos hxy, if_neg (not_lt.mpr hzx)]
      cases a <;> simp only [Vector3.component] <;> linarith
  · push_neg at hxy
    by_cases hzy : v.z < v.y
    · rw [if_neg (not_lt.mpr hxy), if_pos hzy]
      cases a <;> simp only [Vector3.component] <;> linarith
    · push_neg at hzy
      rw [if_neg (not_lt.mpr hxy), if_neg (not_lt.mpr hzy)]
      cases a <;> simp only [Vector3.component] <;> linarith

/-- C4 (amended).  For a polygon's points with bounding box `(mn, mx)`, the
triangulator's 2D projection discards exactly the axis selected by
`smallest_direction` on the width `mx - mn`; that axis always has minimal
extent, and ties are broken by the fixed preference order Y, then X, then Z
(not X, then Y, then Z as originally claimed). -/
theorem c4_projection_axis (points : List Vector3) (mn mx : Vector3)
    (hbb : bounding_box points = some (mn, mx)) :
    project_2d points =
      points.map (drop_axis (smallest_direction (mx.sub mn))) ∧
    smallest_direction (mx.sub mn) = pref_min_yxz (mx.sub mn) ∧
    ∀ a : Axis,
      (mx.sub mn).component (smallest_direction (mx.sub mn)) ≤
        (mx.sub mn).component a := by
  refine ⟨?_, smallest_direction_eq_pref _, smallest_direction_min _⟩
  simp [project_2d, hbb]

/-- Witness for C4 at the convex pentagon (extents `(4, 3, 0)`: the Z axis
is discarded, the projection keeps `(x, y)`). -/
theorem c4_projection_axis_witness :
    bounding_box c2_pentagon = some (⟨-1, 0, 0⟩, ⟨3, 3, 0⟩) ∧
    project_2d c2_pentagon =
      c2_pentagon.map
        (drop_axis (smallest_direction (Vector3.sub ⟨3, 3, 0⟩ ⟨-1, 0, 0⟩))) ∧
    smallest_direction (Vector3.sub ⟨3, 3, 0⟩ ⟨-1, 0, 0⟩) =
      pref_min_yxz (Vector3.sub ⟨3, 3, 0⟩ ⟨-1, 0, 0⟩) ∧
    ∀ a : Axis,
      (Vector3.sub ⟨3, 3, 0⟩ ⟨-1, 0, 0⟩).component
          (smallest_direction (Vector3.sub ⟨3, 3, 0⟩ ⟨-1, 0, 0⟩)) ≤
        (Vector3.sub ⟨3, 3, 0⟩ ⟨-1, 0, 0⟩).component a := by
  have hbb : bounding_box c2_pentagon = some (⟨-1, 0, 0⟩, ⟨3, 3, 0⟩) := by
    norm_num [c2_pentagon, bounding_box, min_def, max_def]
  obtain ⟨h1, h2, h3⟩ := c4_projection_axis c2_pentagon ⟨-1, 0, 0⟩ ⟨3, 3, 0⟩ hbb
  exact ⟨hbb, h1, h2, h3⟩

/-- Counterexample for C4 as stated: with all three bounding-box extents
equal (width `(1, 1, 1)`), the discarded axis is Y, not the X axis claimed
by the X-then-Y-then-Z preference order. -/
theorem c4_tie_break_counterexample :
    bounding_box c4_tie_points = some (⟨0, 0, 0⟩, ⟨1, 1, 1⟩) ∧
    Vector3.sub ⟨1, 1, 1⟩ ⟨0, 0, 0⟩ = ⟨1, 1, 1⟩ ∧
    smallest_direction ⟨1, 1, 1⟩ = Axis.Y ∧
    Axis.Y ≠ Axis.X ∧
    project_2d c4_tie_points =
      c4_tie_points.map (drop_axis Axis.Y) := by
  refine ⟨?_, by norm_num [Vector3.sub], ?_, by decide, ?_⟩
  · norm_num [c4_tie_points, bounding_box, min_def, max_def]
  · norm_num [smallest_direction]
  · norm_num [c4_tie_points, project_2d, bounding_box, min_def, max_def,
      Vector3.sub, smallest_direction, drop_axis]

/-- C5.  Every successfully built geometry mesh has positions, normals and
UV of equal length (a mismatch is reported as a length-mismatch load error,
a value rather than a panic), and the flattened union of
`indices_per_material` holds exactly 3 entries per triangle emitted by the
triangulator. -/
theorem c5_geometry_mesh_lengths (mesh_obj : GeometryMeshObj)
    (num_materials : Nat) (polys : List (List Vector3))
    (tris : List (Vector3 × Vector3 × Vector3)) (mesh : GeometryMesh)
    (hpv : mesh_obj.polygon_vertices = Except.ok polys)
    (htri : triangulate_each polys = Except.ok tris)
    (hload : build_geometry_mesh mesh_obj num_materials = Except.ok mesh) :
    mesh.positions.length = mesh.normals.length ∧
    mesh.positions.length = mesh.uv.length ∧
    ((mesh.indices_per_material.map List.length).sum) = 3 * tris.length := by
  cases hhead : mesh_obj.layers.head? with
  | none =>
    simp only [build_geometry_mesh, hpv, docE, htri, hhead] at hload
    cases hload
  | some layer =>
  cases hn : layer.normals with
  | none =>
    simp only [build_geometry_mesh, hpv, docE, htri, hhead, hn] at hload
    cases hload
  | some normal_of =>
  cases hns : mapME normal_of (List.range (3 * tris.length)) with
  | error e =>
    simp only [build_geometry_mesh, hpv, docE, htri, hhead, hn, hns] at hload
    cases hload
  | ok normals =>
  cases hu : layer.uv with
  | none =>
    simp only [build_geometry_mesh, hpv, docE, htri, hhead, hn, hns, hu]
      at hload
    cases hload
  | some uv_of =>
  cases hus : mapME uv_of (List.range (3 * tris.length)) with
  | error e =>
    simp only [build_geometry_mesh, hpv, docE, htri, hhead, hn, hns, hu, hus]
      at hload
    cases hload
  | ok uv =>
  cases hm : layer.materials with
  | none =>
    simp only [build_geometry_mesh, hpv, docE, htri, hhead, hn, hns, hu, hus,
      hm] at hload
    cases hload
  | some material_of =>
  cases hb : bucket_loop material_of num_materials
      (List.replicate num_materials []) (List.range (3 * tris.length)) with
  | error e =>
    simp only [build_geometry_mesh, hpv, docE, htri, hhead, hn, hns, hu, hus,
      hm, hb] at hload
    cases hload
  | ok indices_per_material =>
  simp only [build_geometry_mesh, hpv, docE, htri, hhead, hn, hns, hu, hus,
    hm, hb] at hload
  by_cases h1 : ((tris.map (fun t => [t.1, t.2.1, t.2.2])).flatten).length ≠
      normals.length
  · rw [if_pos h1] at hload; cases hload
  · rw [if_neg h1] at hload
    by_cases h2 : ((tris.map (fun t => [t.1, t.2.1, t.2.2])).flatten).length ≠
        uv.length
    · rw [if_pos h2] at hload; cases hload
    · rw [if_neg h2] at hload
      cases hload
      push_neg at h1 h2
      refine ⟨h1, h2, ?_⟩
      have hsum := bucket_loop_sum material_of num_materials
        (List.range (3 * tris.length)) (List.replicate num_materials [])
        indices_per_material hb
      rw [hsum, sum_length_replicate_nil, List.length_range]
      omega

/-- Witness for C5 at a one-triangle geometry object with total layer
lookups. -/
theorem c5_geometry_mesh_lengths_witness :
    c5_obj.polygon_vertices =
      Except.ok [[⟨0, 0, 0⟩, ⟨1, 0, 0⟩, ⟨0, 1, 0⟩]] ∧
    triangulate_each [[⟨0, 0, 0⟩, ⟨1, 0, 0⟩, ⟨0, 1, 0⟩]] =
      Except.ok [(⟨0, 0, 0⟩, ⟨1, 0, 0⟩, ⟨0, 1, 0⟩)] ∧
    build_geometry_mesh c5_obj 1 = Except.ok c5_mesh ∧
    (c5_mesh.positions.length = c5_mesh.normals.length ∧
     c5_mesh.positions.length = c5_mesh.uv.length ∧
     ((c5_mesh.indices_per_material.map List.length).sum) =
       3 * [((⟨0, 0, 0⟩ : Vector3), (⟨1, 0, 0⟩ : Vector3),
             (⟨0, 1, 0⟩ : Vector3))].length) :=
  ⟨rfl, rfl, rfl,
   c5_geometry_mesh_lengths c5_obj 1 [[⟨0, 0, 0⟩, ⟨1, 0, 0⟩, ⟨0, 1, 0⟩]]
     [(⟨0, 0, 0⟩, ⟨1, 0, 0⟩, ⟨0, 1, 0⟩)] c5_mesh rfl rfl rfl⟩

/-- C9.  When resolving a material's diffuse texture: a transparent-texture
slot is chosen even when a diffuse-texture slot also exists and the texture
is stored with `transparent = true`; with no transparent slot the diffuse
slot is used with `transparent = false`; with neither slot the result is
`none` and no error. -/
theorem c9_diffuse_texture_preference
    (l : Loader) (m mD mN : MaterialObj) (t tD : TextureObj)
    (img imgD : DynamicImage) (ru rv ruD rvD : RawWrapMode)
    (clip clipD : VideoClipObj) (fn fnD : String)
    (ht : m.transparent_texture = some t)
    (hmiss : cache_get l.texture_indices t.object_id = none)
    (hu : t.wrap_mode_u = Except.ok ru)
    (hv : t.wrap_mode_v = Except.ok rv)
    (hclip : t.video_clip = some clip)
    (hfn : clip.relative_filename = Except.ok fn)
    (hcontent : clip.content = some img)
    (htD : mD.transparent_texture = none)
    (hdD : mD.diffuse_texture = some tD)
    (hmissD : cache_get l.texture_indices tD.object_id = none)
    (huD : tD.wrap_mode_u = Except.ok ruD)
    (hvD : tD.wrap_mode_v = Except.ok rvD)
    (hclipD : tD.video_clip = some clipD)
    (hfnD : clipD.relative_filename = Except.ok fnD)
    (hcontentD : clipD.content = some imgD)
    (htN : mN.transparent_texture = none)
    (hdN : mN.diffuse_texture = none) :
    l.load_diffuse_texture m =
      Except.ok
        ({ l with scene := (l.scene.add_texture
            ⟨t.name, img, true, wrap_mode_of_raw ru, wrap_mode_of_raw rv⟩).1 },
         some (TextureIndex.new l.scene.textures.length)) ∧
    l.load_diffuse_texture mD =
      Except.ok
        ({ l with scene := (l.scene.add_texture
            ⟨tD.name, imgD, false, wrap_mode_of_raw ruD,
             wrap_mode_of_raw rvD⟩).1 },
         some (TextureIndex.new l.scene.textures.length)) ∧
    l.load_diffuse_texture mN = Except.ok (l, none) := by
  refine ⟨?_, ?_, ?_⟩
  · simp only [Loader.load_diffuse_texture, ht, Loader.load_texture, hmiss,
      hu, hv, docE, hclip, load_video_clip, hfn, hcontent,
      Scene.add_texture]
  · simp only [Loader.load_diffuse_texture, htD, hdD, Loader.load_texture,
      hmissD, huD, hvD, docE, hclipD, load_video_clip, hfnD, hcontentD,
      Scene.add_texture]
  · simp only [Loader.load_diffuse_texture, htN, hdN]

/-- Witness for C9 at concrete materials with both slots, a diffuse-only
slot, and no slot. -/
theorem c9_diffuse_texture_preference_witness :
    (Loader.new empty_doc).load_diffuse_texture c9_mat_both =
      Except.ok
        ({ Loader.new empty_doc with
            scene := ((Loader.new empty_doc).scene.add_texture
              ⟨c10_texture_obj.name, ⟨0⟩, true,
               wrap_mode_of_raw RawWrapMode.Repeat,
               wrap_mode_of_raw RawWrapMode.Repeat⟩).1 },
         some (TextureIndex.new 0)) ∧
    (Loader.new empty_doc).load_diffuse_texture c9_mat_diffuse =
      Except.ok
        ({ Loader.new empty_doc with
            scene := ((Loader.new empty_doc).scene.add_texture
              ⟨c9_texture_obj.name, ⟨0⟩, false,
               wrap_mode_of_raw RawWrapMode.Clamp,
               wrap_mode_of_raw RawWrapMode.Repeat⟩).1 },
         some (TextureIndex.new 0)) ∧
    (Loader.new empty_doc).load_diffuse_texture c9_mat_none =
      Except.ok (Loader.new empty_doc, none) := by
  obtain ⟨h1, h2, h3⟩ := c9_diffuse_texture_preference
    (Loader.new empty_doc) c9_mat_both c9_mat_diffuse c9_mat_none
    c10_texture_obj c9_texture_obj ⟨0⟩ ⟨0⟩
    RawWrapMode.Repeat RawWrapMode.Repeat RawWrapMode.Clamp
    RawWrapMode.Repeat c10_clip c10_clip "a.png" "a.png"
    rfl rfl rfl rfl rfl rfl rfl rfl rfl rfl rfl rfl rfl rfl rfl rfl rfl
  exact ⟨h1, h2, h3⟩

/-- The Lambert parameter reads succeed on well-defined properties and
produce `color * factor` for each of ambient, diffuse and emissive. -/
theorem lambert_data_ok (m : MaterialObj) (ac dc ec : RGB) (af df ef : ℚ)
    (hac : m.ambient_color = Except.ok ac)
    (haf : m.ambient_factor = Except.ok af)
    (hdc : m.diffuse_color = Except.ok dc)
    (hdf : m.diffuse_factor = Except.ok df)
    (hec : m.emissive_color = Except.ok ec)
    (hef : m.emissive_factor = Except.ok ef) :
    m.lambert_data = Except.ok ⟨ac.scale af, dc.scale df, ec.scale ef⟩ := by
  simp only [MaterialObj.lambert_data, hac, haf, hdc, hdf, hec, hef, docE]
  rfl

/-- C7.  A material whose shading model resolves to anything other than
Lambert or Phong fails its load with the unknown-shading-model error, and
that failure aborts the whole scene load with no partial scene (the load
returns only the error); both Lambert and Phong succeed, producing a
`ShadingData.lambert` whose ambient, diffuse and emissive are each
`color * factor`. -/
theorem c7_shading_model (doc docL docP : Document) (mm : MeshModelObj)
    (g : GeometryMeshObj) (mobj mobjL mobjP : MaterialObj) (s : String)
    (ac dc ec : RGB) (af df ef : ℚ)
    (hobjs : doc.objects = [DocObject.meshModel mm])
    (hgeo : mm.geometry = Except.ok g)
    (hmats : mm.materials = [mobj])
    (ht : mobj.transparent_texture = none)
    (hd : mobj.diffuse_texture = none)
    (hsm : mobj.shading_model = Except.ok (ShadingModel.unknown s))
    (htL : mobjL.transparent_texture = none)
    (hdL : mobjL.diffuse_texture = none)
    (hsmL : mobjL.shading_model = Except.ok ShadingModel.lambert)
    (hacL : mobjL.ambient_color = Except.ok ac)
    (hafL : mobjL.ambient_factor = Except.ok af)
    (hdcL : mobjL.diffuse_color = Except.ok dc)
    (hdfL : mobjL.diffuse_factor = Except.ok df)
    (hecL : mobjL.emissive_color = Except.ok ec)
    (hefL : mobjL.emissive_factor = Except.ok ef)
    (htP : mobjP.transparent_texture = none)
    (hdP : mobjP.diffuse_texture = none)
    (hsmP : mobjP.shading_model = Except.ok ShadingModel.phong)
    (hacP : mobjP.ambient_color = Except.ok ac)
    (hafP : mobjP.ambient_factor = Except.ok af)
    (hdcP : mobjP.diffuse_color = Except.ok dc)
    (hdfP : mobjP.diffuse_factor = Except.ok df)
    (hecP : mobjP.emissive_color = Except.ok ec)
    (hefP : mobjP.emissive_factor = Except.ok ef) :
    from_doc doc =
      Except.error (LoadError.unknownShadingModel (ShadingModel.unknown s)) ∧
    (Loader.new docL).load_material mobjL =
      Except.ok
        ({ Loader.new docL with
            scene := { Scene.new with
              materials := [⟨mobjL.name, none,
                ShadingData.lambert
                  ⟨ac.scale af, dc.scale df, ec.scale ef⟩⟩] } },
         MaterialIndex.new 0) ∧
    (Loader.new docP).load_material mobjP =
      Except.ok
        ({ Loader.new docP with
            scene := { Scene.new with
              materials := [⟨mobjP.name, none,
                ShadingData.lambert
                  ⟨ac.scale af, dc.scale df, ec.scale ef⟩⟩] } },
         MaterialIndex.new 0) := by
  refine ⟨?_, ?_, ?_⟩
  · simp only [from_doc, Loader.load, Loader.new, hobjs, load_objects,
      Loader.load_mesh, cache_get, docE, hgeo, hmats,
      Loader.load_materials_list, Loader.load_material,
      Loader.load_diffuse_texture, ht, hd, hsm]
  · simp only [Loader.load_material, Loader.new, cache_get,
      Loader.load_diffuse_texture, htL, hdL, docE, hsmL,
      lambert_data_ok mobjL ac dc ec af df ef hacL hafL hdcL hdfL hecL hefL,
      Scene.add_material, Scene.new]
    rfl
  · simp only [Loader.load_material, Loader.new, cache_get,
      Loader.load_diffuse_texture, htP, hdP, docE, hsmP,
      lambert_data_ok mobjP ac dc ec af df ef hacP hafP hdcP hdfP hecP hefP,
      Scene.add_material, Scene.new]
    rfl

/-- Witness for C7 at a one-mesh document whose material has shading model
`"Blinn"`, plus concrete Lambert and Phong materials. -/
theorem c7_shading_model_witness :
    from_doc c7_doc =
      Except.error
        (LoadError.unknownShadingModel (ShadingModel.unknown "Blinn")) ∧
    (Loader.new empty_doc).load_material c7_lambert_material =
      Except.ok
        ({ Loader.new empty_doc with
            scene := { Scene.new with
              materials := [⟨c7_lambert_material.name, none,
                ShadingData.lambert
                  ⟨RGB.scale ⟨1, 2, 3⟩ 2, RGB.scale ⟨4, 5, 6⟩ 3,
                   RGB.scale ⟨7, 8, 9⟩ 4⟩⟩] } },
         MaterialIndex.new 0) ∧
    (Loader.new empty_doc).load_material c7_phong_material =
      Except.ok
        ({ Loader.new empty_doc with
            scene := { Scene.new with
              materials := [⟨c7_phong_material.name, none,
                ShadingData.lambert
                  ⟨RGB.scale ⟨1, 2, 3⟩ 2, RGB.scale ⟨4, 5, 6⟩ 3,
                   RGB.scale ⟨7, 8, 9⟩ 4⟩⟩] } },
         MaterialIndex.new 0) := by
  obtain ⟨h1, h2, h3⟩ := c7_shading_model c7_doc empty_doc empty_doc
    c7_mesh_obj c5_obj c7_bad_material c7_lambert_material c7_phong_material
    "Blinn" ⟨1, 2, 3⟩ ⟨4, 5, 6⟩ ⟨7, 8, 9⟩ 2 3 4
    rfl rfl rfl rfl rfl rfl rfl rfl rfl rfl rfl rfl rfl rfl rfl rfl rfl rfl
    rfl rfl rfl rfl rfl rfl
  exact ⟨h1, h2, h3⟩

end FbxViewer
